import Mathlib

/-!
Verification development for the USPD liquidator bot.

The TypeScript services are shallowly embedded as pure Lean functions:
* machine big-integers (`bigint` wei/share amounts) become `Nat`/`Int`,
* JavaScript floating-point arithmetic is idealised as exact rationals (`ℚ`),
* remote calls (RPC reads, HTTP fetches) become explicit `Except`-valued
  oracle arguments supplied by the caller,
* the mutable `Map<string, StabilizerPosition>` of `PositionService` becomes
  an insertion-ordered association list with JS `Map.set` semantics.
-/

namespace LiquidatorBot

/-- Mirror of the `StabilizerPosition` interface in
`src/services/PositionService.ts`.  Addresses are modelled as strings,
`bigint` token amounts as `Nat` (they are uint256 reads), the
floating-point ratio and threshold as `ℚ`, and `lastUpdated` (a
`Date.now()` value) as `Nat`. -/
structure StabilizerPos where
  nftId : Nat
  owner : String
  positionEscrowAddress : String
  collateralAmount : Nat
  backedShares : Nat
  uspdDebt : Nat
  collateralizationRatio : ℚ
  isLiquidatable : Bool
  liquidationThreshold : ℚ
  lastUpdated : Nat
  deriving Repr, DecidableEq

/-- `PositionService.calculateLiquidationThreshold`: tier 0 yields 110.00;
any tier ≥ 1 yields `Math.max(125.00 - Number(tokenId - 1n) * 0.5, 110.00)`. -/
def calculateLiquidationThreshold (liquidatorTokenId : Nat) : ℚ :=
  if liquidatorTokenId = 0 then
    110
  else
    max (125 - ((liquidatorTokenId - 1 : Nat) : ℚ) * (1/2)) 110

/-- Mirror of the validated `PriceData` interface in
`src/services/PriceService.ts` (fields as delivered by the price API). -/
structure PriceData where
  price : String
  dataTimestamp : Int
  requestTimestamp : Int
  assetPair : String
  signature : String
  decimals : Nat
  deriving Repr, DecidableEq

/-- A raw JSON payload as received from the price API before validation:
`price`, `signature` and `decimals` may be absent (JS `undefined`). -/
structure RawPricePayload where
  price : Option String
  dataTimestamp : Int
  requestTimestamp : Int
  assetPair : String
  signature : Option String
  decimals : Option Nat
  deriving Repr, DecidableEq

/-- JS truthiness of an optional string field: `undefined` and `""` are falsy. -/
def strTruthy : Option String → Bool
  | none => false
  | some s => !s.isEmpty

/-- JS truthiness of an optional numeric field: `undefined` and `0` are falsy. -/
def natTruthy : Option Nat → Bool
  | none => false
  | some n => n != 0

/-- `PriceService.getCurrentEthPrice`: the fetch result is the oracle input
(`.error` models an unreachable source / non-ok HTTP response).  On a
successful fetch the payload is validated with
`if (!priceData.price || !priceData.signature || !priceData.decimals) throw`
— JS truthiness checks — and returned unchanged otherwise. -/
def getCurrentEthPrice (response : Except String RawPricePayload) :
    Except String PriceData :=
  match response with
  | .error e => .error e
  | .ok payload =>
    if strTruthy payload.price && strTruthy payload.signature
        && natTruthy payload.decimals then
      .ok { price := payload.price.getD ""
            dataTimestamp := payload.dataTimestamp
            requestTimestamp := payload.requestTimestamp
            assetPair := payload.assetPair
            signature := payload.signature.getD ""
            decimals := payload.decimals.getD 0 }
    else
      .error "Invalid price data structure received from API"

/-- `PriceService.priceToNumber`: `Number(BigInt(price)) / Number(10 ** decimals)`,
idealised over exact rationals.  `price` is taken already parsed to an integer. -/
def priceToNumber (price : Int) (decimals : Nat) : ℚ :=
  (price : ℚ) / 10 ^ decimals

/-- The net-profit-in-USD intermediate of
`LiquidationService.calculateLiquidationProfit`:
`debtValueUsd = Number(uspdDebt) / 1e18`,
`bonusValue = debtValueUsd * 5 / 100`,
`estimatedGasCostUsd = 0.01 * ethPriceUsd`,
`netProfitUsd = bonusValue - estimatedGasCostUsd`. -/
def netProfitUsd (position : StabilizerPos) (ethPriceUsd : ℚ) : ℚ :=
  let debtValueUsd : ℚ := (position.uspdDebt : ℚ) / 10 ^ 18
  let liquidationBonusPercent : ℚ := 5
  let bonusValue := debtValueUsd * liquidationBonusPercent / 100
  let estimatedGasCostEth : ℚ := 1/100
  let estimatedGasCostUsd := estimatedGasCostEth * ethPriceUsd
  bonusValue - estimatedGasCostUsd

/-- The net-profit-in-ETH intermediate of `calculateLiquidationProfit`:
`netProfitEth = netProfitUsd / ethPriceUsd`. -/
def netProfitEth (position : StabilizerPos) (ethPriceUsd : ℚ) : ℚ :=
  netProfitUsd position ethPriceUsd / ethPriceUsd

/-- `LiquidationService.calculateLiquidationProfit` (the variant with the
explicit non-positive clamp): if `netProfitEth <= 0` return `0n`, otherwise
`parseEther(netProfitEth.toFixed(18))`, i.e. the net ETH profit rounded to
18 decimals and scaled to wei. -/
def calculateLiquidationProfit (position : StabilizerPos) (ethPriceUsd : ℚ) :
    Int :=
  if netProfitEth position ethPriceUsd ≤ 0 then
    0
  else
    round (netProfitEth position ethPriceUsd * 10 ^ 18)

example : netProfitUsd
    { nftId := 1, owner := "o", positionEscrowAddress := "e"
      collateralAmount := 650000000000000000, backedShares := 1
      uspdDebt := 2400000000000000000000, collateralizationRatio := 0
      isLiquidatable := false, liquidationThreshold := 110, lastUpdated := 0 }
    (450327/100) = 749673/10000 := by
  norm_num [netProfitUsd]

/-! ## Position registry

`PositionService.positions` is a JS `Map<string, StabilizerPosition>` keyed
by `nftId.toString()`.  `toString` is injective on the ids, so the model
keys directly by the numeric id.  JS `Map` iterates in insertion order and
`Map.set` replaces an existing key in place, which an association list with
the `mapSet` below reproduces exactly. -/

/-- The registry store: insertion-ordered key/value pairs. -/
abbrev PositionMap := List (Nat × StabilizerPos)

/-- JS `Map.get`: the value at the first (unique) occurrence of the key. -/
def mapGet : PositionMap → Nat → Option StabilizerPos
  | [], _ => none
  | (k, q) :: rest, id => if k = id then some q else mapGet rest id

/-- JS `Map.set`: replace in place when the key exists, else append. -/
def mapSet : PositionMap → Nat → StabilizerPos → PositionMap
  | [], id, p => [(id, p)]
  | (k, q) :: rest, id, p =>
    if k = id then (id, p) :: rest else (k, q) :: mapSet rest id p

/-- The data `initializePosition` reads from the chain for one nft id:
escrow address, owner, collateral balance, backed pool shares and the USPD
debt (the `.catch(() => 0n)` fallback is considered already applied to the
debt read, matching the source). -/
structure ChainPositionData where
  positionEscrowAddress : String
  owner : String
  collateralAmount : Nat
  backedShares : Nat
  uspdDebt : Nat
  deriving Repr, DecidableEq

/-- The zero address guarded against in `initializePosition`. -/
def zeroAddress : String := "0x0000000000000000000000000000000000000000"

/-- `PositionService.initializePosition`: the chain reads are the oracle
input (`.error` models any thrown RPC failure, which the source catches and
logs, leaving the store unchanged).  A zero escrow address returns early.
Otherwise a fresh record is stored with ratio 0, `isLiquidatable` false,
the threshold from `calculateLiquidationThreshold(liquidatorNftId)` and
`lastUpdated = Date.now()` (passed in as `now`). -/
def initializePosition (s : PositionMap) (liquidatorNftId : Nat) (nftId : Nat)
    (chain : Except String ChainPositionData) (now : Nat) : PositionMap :=
  match chain with
  | .error _ => s
  | .ok d =>
    if d.positionEscrowAddress = zeroAddress then
      s
    else
      mapSet s nftId
        { nftId := nftId
          owner := d.owner
          positionEscrowAddress := d.positionEscrowAddress
          collateralAmount := d.collateralAmount
          backedShares := d.backedShares
          uspdDebt := d.uspdDebt
          collateralizationRatio := 0
          isLiquidatable := false
          liquidationThreshold := calculateLiquidationThreshold liquidatorNftId
          lastUpdated := now }

/-- `PositionService.addPosition`: logs and delegates to `initializePosition`. -/
def addPosition (s : PositionMap) (liquidatorNftId : Nat) (nftId : Nat)
    (chain : Except String ChainPositionData) (now : Nat) : PositionMap :=
  initializePosition s liquidatorNftId nftId chain now

/-- `PositionService.updatePosition`: looks the position up (missing id →
warn and return unchanged); the remote `getCollateralizationRatio` call is
the oracle input (`.error` models a thrown RPC failure, caught by the
source, leaving the store unchanged).  On success the basis-point ratio is
divided by 100, and the record is updated with the new ratio,
`isLiquidatable = ratio < liquidationThreshold && backedShares > 0n` and a
fresh timestamp. -/
def updatePosition (s : PositionMap) (nftId : Nat)
    (ratioResult : Except String Nat) (now : Nat) : PositionMap :=
  match mapGet s nftId with
  | none => s
  | some position =>
    match ratioResult with
    | .error _ => s
    | .ok ratioRaw =>
      let ratio : ℚ := (ratioRaw : ℚ) / 100
      mapSet s nftId
        { position with
          collateralizationRatio := ratio
          isLiquidatable :=
            decide (ratio < position.liquidationThreshold)
              && decide (0 < position.backedShares)
          lastUpdated := now }

/-- `PositionService.updateAllPositions`: snapshots the active positions
(`backedShares > 0n`) and refreshes each via `updatePosition` keyed by its
`nftId`; `ratioFor` supplies each position's remote ratio result.  Batching
with `Promise.allSettled` only bounds concurrency; per-position effects on
distinct keys commute, so the model sequences them. -/
def updateAllPositions (s : PositionMap) (ratioFor : Nat → Except String Nat)
    (now : Nat) : PositionMap :=
  let activePositions :=
    (s.map Prod.snd).filter (fun p => decide (0 < p.backedShares))
  activePositions.foldl
    (fun st p => updatePosition st p.nftId (ratioFor p.nftId) now) s

/-! ## Liquidation orchestrator -/

/-- Mirror of the `LiquidationResult` interface in
`src/services/LiquidationService.ts`. -/
structure LiquidationResult where
  success : Bool
  txHash : Option String
  profit : Option Int
  error : Option String
  deriving Repr, DecidableEq

/-- `LiquidationService.checkUspdBalance`: the ERC20 `balanceOf` read is
the oracle input; a thrown read is caught and reported as `false`.
Otherwise returns `balance >= requiredAmount`. -/
def checkUspdBalance (balanceResult : Except String Nat)
    (requiredAmount : Nat) : Bool :=
  match balanceResult with
  | .error _ => false
  | .ok balance => requiredAmount ≤ balance

/-- `calculateLiquidationProfit` including its surrounding `try`/`catch`:
a failure while obtaining the numeric price (the only fallible step in the
body) is caught and reported as `0n`. -/
def calculateLiquidationProfitCaught (position : StabilizerPos)
    (priceResult : Except String ℚ) : Int :=
  match priceResult with
  | .error _ => 0
  | .ok ethPriceUsd => calculateLiquidationProfit position ethPriceUsd

/-- `parseEther('0.01')`, the default `minProfitThreshold`. -/
def defaultMinProfitThreshold : Int := 10 ^ 16

/-- `LiquidationService.liquidatePosition`: balance check first
(insufficient → decline `'Insufficient USPD balance'`), then profit check
(below `minProfitThreshold` → decline `'Profit below threshold'`), then the
(placeholder) execution returning success with a tx reference and the
estimated profit.  The whole body is wrapped in `try`/`catch`, so the
function is total and never throws. -/
def liquidatePosition (position : StabilizerPos)
    (balanceResult : Except String Nat) (priceResult : Except String ℚ)
    (minProfitThreshold : Int) : LiquidationResult :=
  let requiredUspd := position.uspdDebt
  if !checkUspdBalance balanceResult requiredUspd then
    { success := false, txHash := none, profit := none
      error := some "Insufficient USPD balance" }
  else
    let expectedProfit := calculateLiquidationProfitCaught position priceResult
    if expectedProfit < minProfitThreshold then
      { success := false, txHash := none, profit := none
        error := some "Profit below threshold" }
    else
      { success := true, txHash := some "0x..."
        profit := some expectedProfit, error := none }

/-! ## Derived predicates -/

/-- The per-position eligibility discipline maintained by the registry:
either the flag agrees with the refresh rule
`ratio < threshold && backedShares > 0` (the state left by a successful
`updatePosition`), or the position is in its freshly initialized state
(ratio 0, flag false). -/
def goodPosition (p : StabilizerPos) : Prop :=
  p.isLiquidatable =
      (decide (p.collateralizationRatio < p.liquidationThreshold)
        && decide (0 < p.backedShares))
    ∨ (p.collateralizationRatio = 0 ∧ p.isLiquidatable = false)

instance (p : StabilizerPos) : Decidable (goodPosition p) := by
  unfold goodPosition; infer_instance

/-- Every stored position satisfies `goodPosition`. -/
def registryInvariant (s : PositionMap) : Prop :=
  ∀ kp ∈ s, goodPosition kp.2

instance (s : PositionMap) : Decidable (registryInvariant s) := by
  unfold registryInvariant; infer_instance

/-! ## Map lemmas -/

theorem mapGet_mapSet_self (s : PositionMap) (id : Nat) (p : StabilizerPos) :
    mapGet (mapSet s id p) id = some p := by
  induction s with
  | nil => simp [mapSet, mapGet]
  | cons kq rest ih =>
    obtain ⟨k, q⟩ := kq
    by_cases h : k = id <;> simp [mapSet, mapGet, h, ih]

theorem mem_mapSet {s : PositionMap} {id : Nat} {p : StabilizerPos} :
    ∀ kq ∈ mapSet s id p, kq ∈ s ∨ kq = (id, p) := by
  induction s with
  | nil =>
    intro kq h
    simp [mapSet] at h
    exact Or.inr h
  | cons hd rest ih =>
    obtain ⟨k, q⟩ := hd
    intro kq h
    by_cases hk : k = id
    · simp only [mapSet, if_pos hk, List.mem_cons] at h
      rcases h with h | h
      · exact Or.inr h
      · exact Or.inl (List.mem_cons_of_mem _ h)
    · simp only [mapSet, if_neg hk, List.mem_cons] at h
      rcases h with h | h
      · exact Or.inl (by simp [h])
      · rcases ih kq h with h' | h'
        · exact Or.inl (List.mem_cons_of_mem _ h')
        · exact Or.inr h'

theorem mapSet_mapSet (s : PositionMap) (id : Nat) (p q : StabilizerPos) :
    mapSet (mapSet s id p) id q = mapSet s id q := by
  induction s with
  | nil => simp [mapSet]
  | cons hd rest ih =>
    obtain ⟨k, v⟩ := hd
    by_cases h : k = id <;> simp [mapSet, h, ih]

theorem registryInvariant_mapSet {s : PositionMap} {id : Nat}
    {p : StabilizerPos} (hs : registryInvariant s) (hp : goodPosition p) :
    registryInvariant (mapSet s id p) := by
  intro kq hkq
  rcases mem_mapSet kq hkq with h | h
  · exact hs kq h
  · rw [h]; exact hp

/-! ## Invariant preservation helpers -/

theorem goodPosition_init (d : ChainPositionData) (lid id now : Nat) :
    goodPosition
      { nftId := id, owner := d.owner
        positionEscrowAddress := d.positionEscrowAddress
        collateralAmount := d.collateralAmount
        backedShares := d.backedShares, uspdDebt := d.uspdDebt
        collateralizationRatio := 0, isLiquidatable := false
        liquidationThreshold := calculateLiquidationThreshold lid
        lastUpdated := now } :=
  Or.inr ⟨rfl, rfl⟩

theorem initializePosition_invariant (s : PositionMap) (lid id : Nat)
    (chain : Except String ChainPositionData) (now : Nat)
    (hs : registryInvariant s) :
    registryInvariant (initializePosition s lid id chain now) := by
  match chain with
  | .error e => exact hs
  | .ok d =>
    unfold initializePosition
    by_cases h : d.positionEscrowAddress = zeroAddress
    · simpa [h] using hs
    · simp only [if_neg h]
      exact registryInvariant_mapSet hs (goodPosition_init d lid id now)

theorem updatePosition_invariant (s : PositionMap) (id : Nat)
    (r : Except String Nat) (now : Nat) (hs : registryInvariant s) :
    registryInvariant (updatePosition s id r now) := by
  unfold updatePosition
  match hget : mapGet s id with
  | none => exact hs
  | some position =>
    match r with
    | .error e => exact hs
    | .ok ratioRaw =>
      exact registryInvariant_mapSet hs (Or.inl rfl)

theorem updateAllPositions_invariant (s : PositionMap)
    (ratioFor : Nat → Except String Nat) (now : Nat)
    (hs : registryInvariant s) :
    registryInvariant (updateAllPositions s ratioFor now) := by
  unfold updateAllPositions
  generalize (List.map Prod.snd s).filter (fun p => decide (0 < p.backedShares))
    = active
  induction active generalizing s with
  | nil => exact hs
  | cons hd tl ih =>
    exact ih _ (updatePosition_invariant _ _ _ _ hs)

/-! ## Claim theorems -/

/-- C1: every position stored by the registry obeys the eligibility
discipline: a successful refresh stores
`isLiquidatable = (ratio < threshold && backedShares > 0)` for the
refreshed position; `goodPosition` forces `isLiquidatable = false` whenever
`backedShares = 0`; a successful initialization stores ratio 0 and
eligibility false; and the resulting invariant holds of the empty registry
and is preserved by `initializePosition`, `addPosition`, `updatePosition`
and `updateAllPositions`. -/
theorem registry_eligibility_invariant :
    registryInvariant ([] : PositionMap)
    ∧ (∀ p : StabilizerPos, goodPosition p → p.backedShares = 0 →
        p.isLiquidatable = false)
    ∧ (∀ (s : PositionMap) (lid id : Nat) (d : ChainPositionData) (now : Nat),
        d.positionEscrowAddress ≠ zeroAddress →
        ∃ q, mapGet (initializePosition s lid id (.ok d) now) id = some q
          ∧ q.collateralizationRatio = 0 ∧ q.isLiquidatable = false)
    ∧ (∀ (s : PositionMap) (id ratioRaw now : Nat) (p : StabilizerPos),
        mapGet s id = some p →
        ∃ q, mapGet (updatePosition s id (.ok ratioRaw) now) id = some q
          ∧ q.isLiquidatable =
              (decide (q.collateralizationRatio < q.liquidationThreshold)
                && decide (0 < q.backedShares)))
    ∧ (∀ (s : PositionMap) (lid id : Nat)
        (chain : Except String ChainPositionData) (now : Nat),
        registryInvariant s →
        registryInvariant (initializePosition s lid id chain now))
    ∧ (∀ (s : PositionMap) (lid id : Nat)
        (chain : Except String ChainPositionData) (now : Nat),
        registryInvariant s →
        registryInvariant (addPosition s lid id chain now))
    ∧ (∀ (s : PositionMap) (id : Nat) (r : Except String Nat) (now : Nat),
        registryInvariant s → registryInvariant (updatePosition s id r now))
    ∧ (∀ (s : PositionMap) (ratioFor : Nat → Except String Nat) (now : Nat),
        registryInvariant s →
        registryInvariant (updateAllPositions s ratioFor now)) := by
  refine ⟨?_, ?_, ?_, ?_, ?_, ?_, ?_, ?_⟩
  · intro kp hkp; cases hkp
  · intro p hp hz
    rcases hp with h | h
    · rw [h, hz]; simp
    · exact h.2
  · intro s lid id d now hd
    refine ⟨{ nftId := id, owner := d.owner
              positionEscrowAddress := d.positionEscrowAddress
              collateralAmount := d.collateralAmount
              backedShares := d.backedShares, uspdDebt := d.uspdDebt
              collateralizationRatio := 0, isLiquidatable := false
              liquidationThreshold := calculateLiquidationThreshold lid
              lastUpdated := now }, ?_, rfl, rfl⟩
    unfold initializePosition
    simp only [if_neg hd]
    exact mapGet_mapSet_self ..
  · intro s id ratioRaw now p hp
    refine ⟨{ p with
              collateralizationRatio := (ratioRaw : ℚ) / 100
              isLiquidatable :=
                decide ((ratioRaw : ℚ) / 100 < p.liquidationThreshold)
                  && decide (0 < p.backedShares)
              lastUpdated := now }, ?_, rfl⟩
    unfold updatePosition
    rw [hp]
    exact mapGet_mapSet_self ..
  · exact initializePosition_invariant
  · exact fun s lid id chain now hs =>
      initializePosition_invariant s lid id chain now hs
  · exact updatePosition_invariant
  · exact updateAllPositions_invariant

/-- Concrete chain data used by witnesses and counterexamples. -/
def sampleChainData : ChainPositionData :=
  { positionEscrowAddress := "0x1111111111111111111111111111111111111111"
    owner := "0x2222222222222222222222222222222222222222"
    collateralAmount := 650000000000000000
    backedShares := 1000
    uspdDebt := 2400000000000000000000 }

/-- C1 witness: the invariant transfer applied at a concrete one-position
registry with a successful refresh. -/
theorem registry_eligibility_invariant_witness :
    registryInvariant
      (updatePosition (addPosition [] 0 1 (.ok sampleChainData) 7) 1
        (.ok 9000) 8) :=
  registry_eligibility_invariant.2.2.2.2.2.2.1
    (addPosition [] 0 1 (.ok sampleChainData) 7) 1 (.ok 9000) 8
    (registry_eligibility_invariant.2.2.2.2.2.1 [] 0 1 (.ok sampleChainData) 7
      registry_eligibility_invariant.1)

/-- C2: for every position and every positive numeric price, the profit
estimator returns exactly zero whenever the computed net USD profit is
non-positive (equivalently, whenever the bonus is at most the gas
estimate), and it never returns a negative amount. -/
theorem calculateLiquidationProfit_never_negative (position : StabilizerPos)
    (P : ℚ) (hP : 0 < P) :
    (netProfitUsd position P ≤ 0 → calculateLiquidationProfit position P = 0)
    ∧ 0 ≤ calculateLiquidationProfit position P := by
  constructor
  · intro h
    have hEth : netProfitEth position P ≤ 0 := by
      unfold netProfitEth
      exact div_nonpos_iff.mpr (Or.inr ⟨h, hP.le⟩)
    simp [calculateLiquidationProfit, hEth]
  · unfold calculateLiquidationProfit
    split
    · exact le_refl 0
    · next h =>
      have hpos : 0 < netProfitEth position P := lt_of_not_ge h
      rw [round_eq]
      refine Int.floor_nonneg.mpr ?_
      positivity

/-- A concrete position used by witnesses and counterexamples: 0.65 ETH of
collateral, 2400 USPD of debt, active shares, the default 110 threshold. -/
def samplePosition : StabilizerPos :=
  { nftId := 1
    owner := "0x2222222222222222222222222222222222222222"
    positionEscrowAddress := "0x1111111111111111111111111111111111111111"
    collateralAmount := 650000000000000000
    backedShares := 1000
    uspdDebt := 2400000000000000000000
    collateralizationRatio := 0
    isLiquidatable := false
    liquidationThreshold := 110
    lastUpdated := 0 }

/-- A position with zero debt, whose bonus (0) is at most any gas cost. -/
def zeroDebtPosition : StabilizerPos :=
  { samplePosition with uspdDebt := 0 }

/-- C2 witness: at zero debt and price 1, the net USD profit is −0.01 ≤ 0
and the estimator returns 0. -/
theorem calculateLiquidationProfit_never_negative_witness :
    calculateLiquidationProfit zeroDebtPosition 1 = 0
    ∧ 0 ≤ calculateLiquidationProfit zeroDebtPosition 1 :=
  ⟨(calculateLiquidationProfit_never_negative zeroDebtPosition 1
      (by norm_num)).1 (by norm_num [netProfitUsd, zeroDebtPosition, samplePosition]),
   (calculateLiquidationProfit_never_negative zeroDebtPosition 1
      (by norm_num)).2⟩

/-- C3 counterexample: `thresholdFor(0) = 110 < 125 = thresholdFor(1)`, so
the threshold function is not monotonically non-increasing over all tier
ids — it jumps up from tier 0 to tier 1. -/
theorem calculateLiquidationThreshold_not_antitone :
    calculateLiquidationThreshold 0 = 110
    ∧ calculateLiquidationThreshold 1 = 125
    ∧ ¬ (calculateLiquidationThreshold 1 ≤ calculateLiquidationThreshold 0) := by
  refine ⟨rfl, ?_, ?_⟩ <;> norm_num [calculateLiquidationThreshold]

/-- C3 (amended): `thresholdFor(0) = 110`; for every `t ≥ 1`,
`thresholdFor(t) = max(110, 125 − (t − 1) · 0.5)`; the function is
monotonically non-increasing over `t ≥ 1` (tier 0 sits below tier 1, so
monotonicity cannot start at 0) and is bounded below by 110 everywhere. -/
theorem calculateLiquidationThreshold_spec :
    calculateLiquidationThreshold 0 = 110
    ∧ (∀ t : Nat, 1 ≤ t →
        calculateLiquidationThreshold t = max 110 (125 - ((t : ℚ) - 1) * (1/2)))
    ∧ (∀ s t : Nat, 1 ≤ s → s ≤ t →
        calculateLiquidationThreshold t ≤ calculateLiquidationThreshold s)
    ∧ (∀ t : Nat, 110 ≤ calculateLiquidationThreshold t) := by
  refine ⟨rfl, ?_, ?_, ?_⟩
  · intro t ht
    have ht0 : t ≠ 0 := by omega
    have hc : ((t - 1 : Nat) : ℚ) = (t : ℚ) - 1 := by
      push_cast [Nat.cast_sub ht]
      ring
    rw [calculateLiquidationThreshold, if_neg ht0, hc, max_comm]
  · intro s t hs hst
    have hs0 : s ≠ 0 := by omega
    have ht0 : t ≠ 0 := by omega
    simp only [calculateLiquidationThreshold, if_neg hs0, if_neg ht0]
    have hle : ((s - 1 : Nat) : ℚ) ≤ ((t - 1 : Nat) : ℚ) := by
      exact_mod_cast Nat.sub_le_sub_right hst 1
    exact max_le_max (by linarith) le_rfl
  · intro t
    by_cases ht : t = 0
    · rw [ht]; exact le_refl _
    · rw [calculateLiquidationThreshold, if_neg ht]
      exact le_max_right ..

/-- C3 witness: the amended formula and monotonicity applied at concrete
tiers 2 and 5. -/
theorem calculateLiquidationThreshold_spec_witness :
    calculateLiquidationThreshold 2 = max 110 (125 - ((2 : ℚ) - 1) * (1/2))
    ∧ calculateLiquidationThreshold 5 ≤ calculateLiquidationThreshold 2 :=
  ⟨calculateLiquidationThreshold_spec.2.1 2 (by norm_num),
   calculateLiquidationThreshold_spec.2.2.1 2 5 (by norm_num) (by norm_num)⟩

/-- C4 counterexample: at the scenario (0.65 ETH collateral, 2400 USPD
debt, price 4503.27) the estimator's net USD profit is exactly 74.9673,
which is more than a cent away from the spec's claimed ≈ 75.06, and the
ETH figure 749673/45032700 ≈ 0.0166473 is more than half a unit in the
fifth decimal away from the claimed ≈ 0.01667. -/
theorem scenario_profit_counterexample :
    netProfitUsd samplePosition (450327/100) = 749673/10000
    ∧ ¬ (|netProfitUsd samplePosition (450327/100) - 7506/100| ≤ 1/100)
    ∧ ¬ (|netProfitEth samplePosition (450327/100) - 1667/100000| ≤ 1/200000) := by
  refine ⟨by norm_num [netProfitUsd, samplePosition], ?_, ?_⟩
  · rw [not_le]
    have h : netProfitUsd samplePosition (450327/100) - 7506/100
        = -(927/10000) := by
      norm_num [netProfitUsd, samplePosition]
    rw [h, abs_neg, abs_of_pos (by norm_num)]
    norm_num
  · rw [not_le]
    have h : netProfitEth samplePosition (450327/100) - 1667/100000
        = -(340703/15010900000) := by
      norm_num [netProfitUsd, netProfitEth, samplePosition]
    rw [h, abs_neg, abs_of_pos (by norm_num)]
    norm_num

/-- C4 (amended): the estimator computes
`netProfitUsd = debtValue · 5 / 100 − 0.01 · P` and
`netProfitEth = netProfitUsd / P`; at the scenario (collateral 0.65 ETH,
debt 2400 USPD, price $4503.27) this yields exactly $74.9673 (the bonus is
exactly $120.00 and the gas cost $45.0327), i.e. 749673/45032700 ≈
0.0166473 ETH — not the spec's ≈ $75.06 ≈ 0.01667 ETH. -/
theorem calculateLiquidationProfit_formula (position : StabilizerPos)
    (P : ℚ) :
    netProfitUsd position P
        = (position.uspdDebt : ℚ) / 10 ^ 18 * 5 / 100 - 1/100 * P
    ∧ netProfitEth position P = netProfitUsd position P / P
    ∧ netProfitUsd samplePosition (450327/100) = 749673/10000
    ∧ netProfitEth samplePosition (450327/100) = 749673/45032700 := by
  refine ⟨?_, rfl, ?_, ?_⟩ <;>
    norm_num [netProfitUsd, netProfitEth, samplePosition]

/-- C5: the balance check runs before the profit check: with a queried
balance below the position's debt the attempt declines with
`'Insufficient USPD balance'` and the result does not depend on the price
oracle (the profit stage is never evaluated); with enough balance and a
profit below the minimum threshold it declines with
`'Profit below threshold'`; otherwise it succeeds with a transaction
reference and the estimated profit. -/
theorem liquidatePosition_stage_order (position : StabilizerPos)
    (balance : Nat) (priceResult priceResult' : Except String ℚ)
    (minT : Int) :
    (balance < position.uspdDebt →
      liquidatePosition position (.ok balance) priceResult minT =
        { success := false, txHash := none, profit := none
          error := some "Insufficient USPD balance" }
      ∧ liquidatePosition position (.ok balance) priceResult minT =
          liquidatePosition position (.ok balance) priceResult' minT)
    ∧ (position.uspdDebt ≤ balance →
        calculateLiquidationProfitCaught position priceResult < minT →
        liquidatePosition position (.ok balance) priceResult minT =
          { success := false, txHash := none, profit := none
            error := some "Profit below threshold" })
    ∧ (position.uspdDebt ≤ balance →
        minT ≤ calculateLiquidationProfitCaught position priceResult →
        liquidatePosition position (.ok balance) priceResult minT =
          { success := true, txHash := some "0x..."
            profit := some (calculateLiquidationProfitCaught position priceResult)
            error := none }) := by
  refine ⟨?_, ?_, ?_⟩
  · intro hbal
    have hch : checkUspdBalance (.ok balance) position.uspdDebt = false := by
      simp [checkUspdBalance, Nat.not_le_of_lt hbal]
    constructor <;> simp [liquidatePosition, hch]
  · intro hbal hprofit
    have hch : checkUspdBalance (.ok balance) position.uspdDebt = true := by
      simp [checkUspdBalance, hbal]
    simp [liquidatePosition, hch, hprofit]
  · intro hbal hprofit
    have hch : checkUspdBalance (.ok balance) position.uspdDebt = true := by
      simp [checkUspdBalance, hbal]
    simp [liquidatePosition, hch, Int.not_lt.mpr hprofit]

/-- C5 witness: the insufficient-balance decline and the success path
applied at concrete inputs (the sample position owes 2400 USPD). -/
theorem liquidatePosition_stage_order_witness :
    (liquidatePosition samplePosition (.ok 0) (.ok (450327/100))
        defaultMinProfitThreshold =
      { success := false, txHash := none, profit := none
        error := some "Insufficient USPD balance" })
    ∧ (liquidatePosition samplePosition (.ok 3000000000000000000000)
        (.ok 12000) 0 =
      { success := true, txHash := some "0x..."
        profit := some (calculateLiquidationProfitCaught samplePosition
          (.ok 12000))
        error := none }) :=
  ⟨((liquidatePosition_stage_order samplePosition 0 (.ok (450327/100))
      (.ok (450327/100)) defaultMinProfitThreshold).1 (by decide)).1,
   (liquidatePosition_stage_order samplePosition 3000000000000000000000
      (.ok 12000) (.ok 12000) 0).2.2 (by decide)
      (by norm_num [calculateLiquidationProfitCaught,
        calculateLiquidationProfit, netProfitEth, netProfitUsd,
        samplePosition])⟩

/-- C6 counterexample: when the balance query itself fails with
`"network error"`, the attempt is reported as the `InsufficientBalance`
decline — not as a failure carrying the underlying error message. -/
theorem liquidation_error_counterexample :
    liquidatePosition samplePosition (.error "network error")
        (.ok (450327/100)) defaultMinProfitThreshold =
      { success := false, txHash := none, profit := none
        error := some "Insufficient USPD balance" }
    ∧ (liquidatePosition samplePosition (.error "network error")
        (.ok (450327/100)) defaultMinProfitThreshold).error
        ≠ some "network error" := by
  constructor <;> decide

/-- C6 (amended): errors below `liquidatePosition` are swallowed, not
surfaced as `FAILED`: a failing balance query makes `checkUspdBalance`
return false, so the attempt declines with `'Insufficient USPD balance'`;
a failing profit calculation is caught as profit `0n`, so with a positive
minimum threshold the attempt declines with `'Profit below threshold'`.
Only errors thrown in the `liquidatePosition` body itself reach its
`catch`, which returns a failure result instead of throwing (the embedding
is a total function, so nothing propagates to the caller). -/
theorem liquidation_error_swallowing (position : StabilizerPos) (e : String)
    (priceResult : Except String ℚ) (balance : Nat) (minT : Int) :
    (liquidatePosition position (.error e) priceResult minT =
      { success := false, txHash := none, profit := none
        error := some "Insufficient USPD balance" })
    ∧ (position.uspdDebt ≤ balance → 0 < minT →
        liquidatePosition position (.ok balance) (.error e) minT =
          { success := false, txHash := none, profit := none
            error := some "Profit below threshold" }) := by
  constructor
  · simp [liquidatePosition, checkUspdBalance]
  · intro hbal hminT
    have hch : checkUspdBalance (.ok balance) position.uspdDebt = true := by
      simp [checkUspdBalance, hbal]
    simp [liquidatePosition, hch, calculateLiquidationProfitCaught, hminT]

/-- C6 witness: the profit-error decline applied at concrete inputs. -/
theorem liquidation_error_swallowing_witness :
    liquidatePosition samplePosition (.ok 3000000000000000000000)
        (.error "price fetch failed") defaultMinProfitThreshold =
      { success := false, txHash := none, profit := none
        error := some "Profit below threshold" } :=
  (liquidation_error_swallowing samplePosition "price fetch failed"
      (.error "price fetch failed") 3000000000000000000000
      defaultMinProfitThreshold).2 (by decide) (by decide)

/-- C7: when the remote ratio computation fails for a stored position,
`updatePosition` returns the registry completely unchanged (ratio, flag and
timestamp of the position all keep their prior values) and, being a total
function, propagates nothing to the caller. -/
theorem updatePosition_failure_frame (s : PositionMap) (id : Nat)
    (e : String) (now : Nat) (p : StabilizerPos)
    (hp : mapGet s id = some p) :
    updatePosition s id (.error e) now = s := by
  unfold updatePosition
  rw [hp]

/-- C7 witness: a failing refresh of the single stored position leaves the
concrete registry unchanged. -/
theorem updatePosition_failure_frame_witness :
    updatePosition [(1, samplePosition)] 1 (.error "rpc timeout") 99
      = [(1, samplePosition)] :=
  updatePosition_failure_frame [(1, samplePosition)] 1 "rpc timeout" 99
    samplePosition (by decide)

/-- A syntactically complete price payload whose `decimals` field is 0. -/
def zeroDecimalsPayload : RawPricePayload :=
  { price := some "450327000000000000000"
    dataTimestamp := 1700000000000
    requestTimestamp := 1700000000001
    assetPair := "ETH/USD"
    signature := some "0xsig"
    decimals := some 0 }

/-- C8 counterexample: a payload containing all three fields but with
`decimals = 0` is rejected (JS falsiness treats the present field `0` as
missing), instead of being returned unchanged as the claim requires. -/
theorem getCurrentEthPrice_zero_decimals_counterexample :
    getCurrentEthPrice (.ok zeroDecimalsPayload)
      = .error "Invalid price data structure received from API" := by
  rfl

/-- C8 (amended): `getCurrentEthPrice` fails exactly when the fetch fails
(the error is passed through) or the payload's `price` or `signature` is
missing or empty or its `decimals` is missing **or zero** (JS falsiness);
any payload with a non-empty price and signature and a non-zero decimals
value is returned unchanged, field by field. -/
theorem getCurrentEthPrice_spec (e : String) (payload : RawPricePayload) :
    getCurrentEthPrice (.error e) = .error e
    ∧ (∀ ps sig d, payload.price = some ps → ps ≠ "" →
        payload.signature = some sig → sig ≠ "" →
        payload.decimals = some d → d ≠ 0 →
        getCurrentEthPrice (.ok payload) =
          .ok { price := ps
                dataTimestamp := payload.dataTimestamp
                requestTimestamp := payload.requestTimestamp
                assetPair := payload.assetPair
                signature := sig
                decimals := d })
    ∧ (¬ (strTruthy payload.price && strTruthy payload.signature
          && natTruthy payload.decimals) = true →
        getCurrentEthPrice (.ok payload)
          = .error "Invalid price data structure received from API") := by
  refine ⟨rfl, ?_, ?_⟩
  · intro ps sig d hps hpsne hsig hsigne hd hdne
    have h1 : strTruthy (some ps) = true := by
      simp [strTruthy, Bool.eq_false_iff, String.isEmpty_iff, hpsne]
    have h2 : strTruthy (some sig) = true := by
      simp [strTruthy, Bool.eq_false_iff, String.isEmpty_iff, hsigne]
    have h3 : natTruthy (some d) = true := by
      simp [natTruthy, hdne]
    simp [getCurrentEthPrice, hps, hsig, hd, h1, h2, h3]
  · intro h
    simp only [getCurrentEthPrice, if_neg h]

/-- C8 witness: pass-through of a fully-truthy payload and rejection of a
missing-signature payload, at concrete inputs. -/
theorem getCurrentEthPrice_spec_witness :
    getCurrentEthPrice
        (.ok { zeroDecimalsPayload with decimals := some 18 }) =
      .ok { price := "450327000000000000000"
            dataTimestamp := 1700000000000
            requestTimestamp := 1700000000001
            assetPair := "ETH/USD"
            signature := "0xsig"
            decimals := 18 }
    ∧ getCurrentEthPrice (.ok { zeroDecimalsPayload with signature := none })
        = .error "Invalid price data structure received from API" :=
  ⟨(getCurrentEthPrice_spec "unused"
      { zeroDecimalsPayload with decimals := some 18 }).2.1
      "450327000000000000000" "0xsig" 18 rfl (by decide) rfl (by decide) rfl
      (by decide),
   (getCurrentEthPrice_spec "unused"
      { zeroDecimalsPayload with signature := none }).2.2 (by decide)⟩

/-- C9 counterexample: after a refresh stores ratio 90 and marks the
position liquidatable, a second `addPosition` for the same id re-reads the
chain and overwrites the record, resetting the ratio to 0 and the
eligibility flag to false — it is not a no-op on those fields. -/
theorem addPosition_not_field_preserving :
    ((mapGet (updatePosition (addPosition [] 0 1 (.ok sampleChainData) 100)
          1 (.ok 9000) 200) 1).map
        (fun p => (p.collateralizationRatio, p.isLiquidatable)))
      = some (90, true)
    ∧ ((mapGet (addPosition
          (updatePosition (addPosition [] 0 1 (.ok sampleChainData) 100)
            1 (.ok 9000) 200) 0 1 (.ok sampleChainData) 300) 1).map
        (fun p => (p.collateralizationRatio, p.isLiquidatable)))
      = some (0, false) := by
  constructor <;>
    norm_num [addPosition, initializePosition, updatePosition, mapGet,
      mapSet, sampleChainData, zeroAddress, calculateLiquidationThreshold]

/-- C9 (amended): calling `addPosition` twice for the same id yields
exactly one stored Position — the second call absorbs the first, leaving
the same state as a single call at the later time — but the second call
re-initializes the record rather than re-confirming it: the stored
position again has ratio 0, eligibility false and the new timestamp,
discarding any refreshed ratio or flag. -/
theorem addPosition_overwrites (s : PositionMap) (lid id : Nat)
    (chain : Except String ChainPositionData) (n1 n2 : Nat) :
    addPosition (addPosition s lid id chain n1) lid id chain n2
      = addPosition s lid id chain n2
    ∧ (∀ d : ChainPositionData, chain = .ok d →
        d.positionEscrowAddress ≠ zeroAddress →
        mapGet (addPosition (addPosition s lid id chain n1) lid id chain n2)
            id =
          some { nftId := id, owner := d.owner
                 positionEscrowAddress := d.positionEscrowAddress
                 collateralAmount := d.collateralAmount
                 backedShares := d.backedShares, uspdDebt := d.uspdDebt
                 collateralizationRatio := 0, isLiquidatable := false
                 liquidationThreshold := calculateLiquidationThreshold lid
                 lastUpdated := n2 }) := by
  have habs : addPosition (addPosition s lid id chain n1) lid id chain n2
      = addPosition s lid id chain n2 := by
    match chain with
    | .error e => rfl
    | .ok d =>
      unfold addPosition initializePosition
      by_cases h : d.positionEscrowAddress = zeroAddress
      · simp [h]
      · simp only [if_neg h]
        exact mapSet_mapSet ..
  refine ⟨habs, ?_⟩
  rintro d rfl hd
  rw [habs]
  unfold addPosition initializePosition
  simp only [if_neg hd]
  exact mapGet_mapSet_self ..

/-- C9 witness: the absorption equation and the reset record at concrete
inputs. -/
theorem addPosition_overwrites_witness :
    mapGet (addPosition (addPosition [] 0 1 (.ok sampleChainData) 100) 0 1
        (.ok sampleChainData) 300) 1 =
      some { nftId := 1, owner := sampleChainData.owner
             positionEscrowAddress := sampleChainData.positionEscrowAddress
             collateralAmount := sampleChainData.collateralAmount
             backedShares := sampleChainData.backedShares
             uspdDebt := sampleChainData.uspdDebt
             collateralizationRatio := 0, isLiquidatable := false
             liquidationThreshold := calculateLiquidationThreshold 0
             lastUpdated := 300 } :=
  (addPosition_overwrites [] 0 1 (.ok sampleChainData) 100 300).2
    sampleChainData rfl (by decide)

/-- C10: refreshing an id that is not in the registry is a complete no-op:
`updatePosition` returns the state unchanged (nothing inserted, nothing
modified) and, being total, throws nothing. -/
theorem updatePosition_missing_frame (s : PositionMap) (id : Nat)
    (r : Except String Nat) (now : Nat) (h : mapGet s id = none) :
    updatePosition s id r now = s := by
  unfold updatePosition
  rw [h]

/-- C10 witness: refreshing absent id 2 leaves a concrete one-position
registry unchanged. -/
theorem updatePosition_missing_frame_witness :
    updatePosition [(1, samplePosition)] 2 (.ok 9000) 99
      = [(1, samplePosition)] :=
  updatePosition_missing_frame [(1, samplePosition)] 2 (.ok 9000) 99
    (by decide)

end LiquidatorBot
